import Mathlib

/-!
# goat: generating Go source from a template

A shallow embedding of `goat.go` (command `goat`).  The command is one linear
procedure: decode the optional JSON data, read the template, parse it, execute
it, attach a header, run gofmt, write the output.

Go strings and byte slices are lists of characters.  The engines the command
delegates to (`encoding/json`, `io/ioutil`, `text/template`, `go/format`) are
fields of an environment record; the process's observable effects (standard
output, standard error, files written, exit status) are fields of a state
record that is passed from stage to stage.
-/

namespace Goat

/-- Go `string` and `[]byte` values. -/
abbrev Bytes := List Char

/-! ## The `fmt` functions used by the command -/

/-- Model of `fmt.Sprintf` for string operands, covering literal text and the
directives `%%`, `%v` and `%s`.  A directive with no operand left is reported
as `%!v(MISSING)`, a trailing `%` as `%!(NOVERB)`.  Any other directive
(flags, width, other verbs) and surplus operands are outside the fragment and
give `none`. -/
def Sprintf : Bytes → List Bytes → Option Bytes
  | [], [] => some []
  | [], _ :: _ => none
  | c :: rest, args =>
    if c = '%' then
      match rest, args with
      | [], [] => some "%!(NOVERB)".toList
      | [], _ :: _ => none
      | v :: rest2, [] =>
        if v = '%' then (Sprintf rest2 []).map (fun r => '%' :: r)
        else if v = 'v' ∨ v = 's' then
          (Sprintf rest2 []).map (fun r => '%' :: '!' :: v :: "(MISSING)".toList ++ r)
        else none
      | v :: rest2, a :: as =>
        if v = '%' then (Sprintf rest2 (a :: as)).map (fun r => '%' :: r)
        else if v = 'v' ∨ v = 's' then (Sprintf rest2 as).map (fun r => a ++ r)
        else none
    else (Sprintf rest args).map (fun r => c :: r)

/-- Model of `fmt.Sprintln` for string operands: the operands separated by
single spaces, followed by a newline. -/
def Sprintln (operands : List Bytes) : Bytes :=
  [' '].intercalate operands ++ ['\n']

/-- The lines of a text: the pieces between newline characters, as
`strings.Split(s, "\n")` gives them. -/
def splitLines : Bytes → List Bytes
  | [] => [[]]
  | c :: cs =>
    if c = '\n' then [] :: splitLines cs
    else
      match splitLines cs with
      | [] => [[c]]
      | l :: ls => (c :: l) :: ls

/-! ## Flags, environment and process state -/

/-- The command-line flags after `flag.Parse()`. -/
structure Flags where
  /-- Flag `-i`: path to the input template file; empty reads stdin. -/
  in_ : Bytes := []
  /-- Flag `-o`: path to the output go file; empty writes to stdout. -/
  out : Bytes := []
  /-- Flag `-d`: JSON-encoded data for the template. -/
  data : Bytes := []
  /-- Flag `-nh`: do not add a header to the output file. -/
  nh : Bool := false
  /-- Flag `-nf`: do not run gofmt on the result. -/
  nf : Bool := false

/-- The engines and the outside world the command calls into.  An error is
represented by its text (`err.Error()`). -/
structure Env (Value Tmpl : Type) where
  /-- The call `json.Unmarshal([]byte(*data), &d)`. -/
  unmarshal : Bytes → Except Bytes Value
  /-- The call `ioutil.ReadAll(os.Stdin)`. -/
  readStdin : Except Bytes Bytes
  /-- The call `ioutil.ReadFile(*in)`. -/
  readFile : Bytes → Except Bytes Bytes
  /-- The call `template.New("").Funcs(funcs).Parse(string(input))`. -/
  parse : List (Bytes × (List Value → List Value)) → Bytes → Except Bytes Tmpl
  /-- The call `t.Execute(buf, d)` followed by `buf.Bytes()`; the data context
  is `none` when `d` was never assigned. -/
  execute : Tmpl → Option Value → Except Bytes Bytes
  /-- The call `format.Source(src)`. -/
  format : Bytes → Except Bytes Bytes
  /-- The call `ioutil.WriteFile(*out, src, perm)`; `none` is a nil error. -/
  writeFile : Bytes → Bytes → Nat → Option Bytes

/-- The stages of `main`, named after the comments that open them. -/
inductive Stage where
  | parseData
  | readTemplate
  | parseTemplate
  | executeTemplate
  | attachHeader
  | runGofmt
  | writeOutput
  deriving DecidableEq, Repr

/-- Observable state of the process. -/
structure World where
  /-- Writes to standard output, one entry per call, oldest first. -/
  stdout : List Bytes := []
  /-- Writes to standard error, one entry per call, oldest first. -/
  stderr : List Bytes := []
  /-- Calls of `ioutil.WriteFile`: path and content, oldest first. -/
  files : List (Bytes × Bytes) := []
  /-- Stages that were started, oldest first. -/
  trace : List Stage := []
  /-- Exit status of the process; `0` unless `os.Exit` was called. -/
  exit : Nat := 0
  deriving DecidableEq, Repr

/-- The call `fmt.Fprintln(os.Stderr, operands...)`. -/
def World.Fprintln_stderr (w : World) (operands : List Bytes) : World :=
  { w with stderr := w.stderr ++ [Sprintln operands] }

/-- The call `fmt.Println(operands...)`, which writes to standard output. -/
def World.Println (w : World) (operands : List Bytes) : World :=
  { w with stdout := w.stdout ++ [Sprintln operands] }

/-- The call `fmt.Print(s)` with one string operand, which writes `s` to
standard output unchanged. -/
def World.Print (w : World) (s : Bytes) : World :=
  { w with stdout := w.stdout ++ [s] }

/-- The call `os.Exit(code)`: the process ends with that status. -/
def World.Exit (w : World) (code : Nat) : World :=
  { w with exit := code }

/-- Records that a stage was started. -/
def World.enter (w : World) (s : Stage) : World :=
  { w with trace := w.trace ++ [s] }

/-! ## The program -/

/-- The template helper `makeSlice`: returns its variadic arguments. -/
def makeSlice {α : Type} (a : List α) : List α :=
  a

/-- The function map `funcs` of `main`. -/
def funcs (Value : Type) : List (Bytes × (List Value → List Value)) :=
  [("slice".toList, makeSlice)]

/-- The package variable `header` as declared. -/
def header : Bytes :=
  ("// ***** DO NOT EDIT THIS FILE MANUALLY. *****\n" ++
   "//\n" ++
   "// This file was auto-generated %vusing goat.\n" ++
   "//\n" ++
   "// goat: https://www.github.com/fluhus/goat\n" ++
   "\n").toList

/-- The local `from` of the header stage: empty when `-i` is empty, otherwise
the path between quotes. -/
def fromClause (in_ : Bytes) : Bytes :=
  if in_ ≠ [] then "from '".toList ++ in_ ++ "' ".toList else []

/-- The value of `header` after `header = fmt.Sprintf(header, from)`. -/
def instHeader (in_ : Bytes) : Bytes :=
  (Sprintf header [fromClause in_]).getD []

/-- Stage "Parse template data", without its effects: `d` stays nil (`none`)
when `-d` is empty; a decoded value, JSON `null` included, is `some v`. -/
def decodeData {Value Tmpl : Type} (env : Env Value Tmpl) (fl : Flags) :
    Except Bytes (Option Value) :=
  if fl.data ≠ [] then
    match env.unmarshal fl.data with
    | .error err => .error err
    | .ok v => .ok (some v)
  else .ok none

/-- Stage "Read template", without its effects. -/
def readInput {Value Tmpl : Type} (env : Env Value Tmpl) (fl : Flags) :
    Except Bytes Bytes :=
  if fl.in_ = [] then env.readStdin else env.readFile fl.in_

/-- Stage "Attach header", as a function of the rendered text. -/
def attachHeader (fl : Flags) (src : Bytes) : Bytes :=
  if !fl.nh then instHeader fl.in_ ++ src else src

/-- Stage "Run gofmt", without its effects. -/
def runGofmt {Value Tmpl : Type} (env : Env Value Tmpl) (fl : Flags) (src : Bytes) :
    Except Bytes Bytes :=
  if !fl.nf then env.format src else .ok src

/-- Stage "Write output". -/
def writeOutput {Value Tmpl : Type} (env : Env Value Tmpl) (fl : Flags) (src : Bytes)
    (w : World) : World :=
  let w := w.enter .writeOutput
  if fl.out = [] then
    w.Print src
  else
    let w := { w with files := w.files ++ [(fl.out, src)] }
    match env.writeFile fl.out src 0o644 with
    | some err => (w.Println ["Failed to write output:".toList, err]).Exit 2
    | none => w.Fprintln_stderr ["Wrote to:".toList, fl.out]

/-- The function `main`, from the parsed flags to the final process state. -/
def main {Value Tmpl : Type} (env : Env Value Tmpl) (fl : Flags) : World :=
  let w : World := {}
  -- Parse template data.
  let w := if fl.data ≠ [] then w.enter .parseData else w
  match decodeData env fl with
  | .error err =>
    (w.Fprintln_stderr ["Failed to parse data (-d param):".toList, err]).Exit 2
  | .ok d =>
  -- Read template.
  let w := if fl.in_ = [] then w.Fprintln_stderr ["Reading from stdin...".toList] else w
  let w := w.enter .readTemplate
  match readInput env fl with
  | .error err => (w.Fprintln_stderr ["Failed to read input:".toList, err]).Exit 2
  | .ok input =>
  -- Parse template.
  let w := w.enter .parseTemplate
  match env.parse (funcs Value) input with
  | .error err => (w.Fprintln_stderr ["Failed to parse template:".toList, err]).Exit 2
  | .ok t =>
  -- Execute template.
  let w := w.enter .executeTemplate
  match env.execute t d with
  | .error err => (w.Println ["Failed to execute template:".toList, err]).Exit 2
  | .ok src =>
  -- Attach header.
  let w := if !fl.nh then w.enter .attachHeader else w
  let src := attachHeader fl src
  -- Run gofmt.
  let w := if !fl.nf then w.enter .runGofmt else w
  match runGofmt env fl src with
  | .error err => (w.Println ["Failed to gofmt the resulting source:".toList, err]).Exit 2
  | .ok src =>
  -- Write output.
  writeOutput env fl src w

/-! ## Vocabulary for the statements -/

/-- Trace of the stage "Parse template data": started only when `-d` is
non-empty. -/
def dataTrace (fl : Flags) : List Stage :=
  if fl.data ≠ [] then [.parseData] else []

/-- What the stage "Read template" writes to standard error before reading. -/
def stdinNote (fl : Flags) : List Bytes :=
  if fl.in_ = [] then [Sprintln ["Reading from stdin...".toList]] else []

/-- State of the process when the stage "Write output" starts. -/
def beforeWrite (fl : Flags) : World :=
  { stderr := stdinNote fl
    trace := dataTrace fl ++ [.readTemplate, .parseTemplate, .executeTemplate]
      ++ (if !fl.nh then [.attachHeader] else [])
      ++ (if !fl.nf then [.runGofmt] else []) }

/-- An environment for concrete runs.  Data `1` decodes and any other data is
rejected; stdin holds `package p`; four template files exist; the template
`{{` does not parse; the template `{{len 1}}` does not execute, whatever the
data; a text ending in `func (` is rejected by the formatter, any other text
gets a final newline; the path `/` cannot be written. -/
def demoEnv : Env Nat Bytes where
  unmarshal := fun s =>
    if s = "1".toList then .ok 1 else .error "invalid character".toList
  readStdin := .ok "package p".toList
  readFile := fun p =>
    if p = "a.tmpl".toList then .ok "package q".toList
    else if p = "bad.tmpl".toList then .ok "\x7b\x7b".toList
    else if p = "exec.tmpl".toList then .ok "\x7b\x7blen 1\x7d\x7d".toList
    else if p = "fmt.tmpl".toList then .ok "func (".toList
    else .error "no such file".toList
  parse := fun _ s =>
    if s = "\x7b\x7b".toList then .error "unclosed action".toList else .ok s
  execute := fun t _ =>
    if t = "\x7b\x7blen 1\x7d\x7d".toList then
      .error "error calling len: len of type int".toList
    else .ok t
  format := fun s =>
    if "func (".toList <:+ s then .error "expected type".toList else .ok (s ++ ['\n'])
  writeFile := fun p _ _ =>
    if p = "/".toList then some "is a directory".toList else none

/-- The run `goat -nf -i a.tmpl`. -/
def flagsNf : Flags := { in_ := "a.tmpl".toList, nf := true }

/-- The run `goat -d 1 -i a.tmpl -o a.go`. -/
def flagsFile : Flags := { in_ := "a.tmpl".toList, out := "a.go".toList, data := "1".toList }

/-- The run `goat -nh`, reading the template from stdin. -/
def flagsStdin : Flags := { nh := true }

/-- The run `goat -d {`. -/
def flagsBadData : Flags := { data := "\x7b".toList }

/-- The run `goat -i exec.tmpl`. -/
def flagsBadExec : Flags := { in_ := "exec.tmpl".toList }

/-- The run `goat -i fmt.tmpl -o a.go`. -/
def flagsBadFmt : Flags := { in_ := "fmt.tmpl".toList, out := "a.go".toList }

/-- The run `goat -i a.tmpl -o /`. -/
def flagsBadWrite : Flags := { in_ := "a.tmpl".toList, out := "/".toList }

/-! ## Facts about `Sprintf` and `splitLines` -/

theorem Sprintf_cons (c : Char) (rest : Bytes) (args : List Bytes) (hc : c ≠ '%') :
    Sprintf (c :: rest) args = (Sprintf rest args).map (fun r => c :: r) := by
  cases rest <;> cases args <;> simp [Sprintf, hc]

theorem Sprintf_lit (s rest : Bytes) (args : List Bytes) (h : '%' ∉ s) :
    Sprintf (s ++ rest) args = (Sprintf rest args).map (fun r => s ++ r) := by
  induction s with
  | nil => simp
  | cons c s ih =>
    have hc : c ≠ '%' := by intro h2; apply h; simp [h2]
    have hs : '%' ∉ s := by intro h2; apply h; simp [h2]
    simp [Sprintf_cons _ _ _ hc, ih hs, Option.map_map, Function.comp_def]

theorem Sprintf_v (rest a : Bytes) (as : List Bytes) :
    Sprintf ('%' :: 'v' :: rest) (a :: as) = (Sprintf rest as).map (fun r => a ++ r) := by
  simp [Sprintf]

theorem Sprintf_lit_nil (s : Bytes) (h : '%' ∉ s) : Sprintf s [] = some s := by
  have := Sprintf_lit s [] [] h
  simpa [Sprintf] using this

/-- The declared header is literal text around a single `%v`. -/
theorem header_split :
    header =
      "// ***** DO NOT EDIT THIS FILE MANUALLY. *****\n//\n// This file was auto-generated ".toList
        ++ '%' :: 'v'
        :: "using goat.\n//\n// goat: https://www.github.com/fluhus/goat\n\n".toList := by
  decide

/-- The formatted header: the `from` clause stands where `%v` stood. -/
theorem instHeader_eq (p : Bytes) :
    instHeader p =
      "// ***** DO NOT EDIT THIS FILE MANUALLY. *****\n//\n// This file was auto-generated ".toList
        ++ fromClause p
        ++ "using goat.\n//\n// goat: https://www.github.com/fluhus/goat\n\n".toList := by
  unfold instHeader
  rw [header_split, Sprintf_lit _ _ _ (by decide), Sprintf_v, Sprintf_lit_nil _ (by decide)]
  simp

theorem splitLines_line (l rest : Bytes) (h : '\n' ∉ l) :
    splitLines (l ++ '\n' :: rest) = l :: splitLines rest := by
  induction l with
  | nil => simp [splitLines]
  | cons c l ih =>
    have hc : c ≠ '\n' := by intro h2; apply h; simp [h2]
    have hl : '\n' ∉ l := by intro h2; apply h; simp [h2]
    simp [splitLines, hc, ih hl]

theorem splitLines_last (l : Bytes) (h : '\n' ∉ l) : splitLines l = [l] := by
  induction l with
  | nil => simp [splitLines]
  | cons c l ih =>
    have hc : c ≠ '\n' := by intro h2; apply h; simp [h2]
    have hl : '\n' ∉ l := by intro h2; apply h; simp [h2]
    simp [splitLines, hc, ih hl]

theorem fromClause_no_newline (p : Bytes) (h : '\n' ∉ p) : '\n' ∉ fromClause p := by
  unfold fromClause
  split
  · simp [h]
  · simp

/-- The lines of the formatted header when the path has no newline. -/
theorem splitLines_instHeader (p : Bytes) (h : '\n' ∉ p) :
    splitLines (instHeader p) =
      [ "// ***** DO NOT EDIT THIS FILE MANUALLY. *****".toList,
        "//".toList,
        "// This file was auto-generated ".toList ++ fromClause p ++ "using goat.".toList,
        "//".toList,
        "// goat: https://www.github.com/fluhus/goat".toList,
        [],
        [] ] := by
  have hf := fromClause_no_newline p h
  have e : instHeader p =
      "// ***** DO NOT EDIT THIS FILE MANUALLY. *****".toList ++ '\n' ::
      ("//".toList ++ '\n' ::
      (("// This file was auto-generated ".toList ++ fromClause p ++ "using goat.".toList)
        ++ '\n' ::
      ("//".toList ++ '\n' ::
      ("// goat: https://www.github.com/fluhus/goat".toList ++ '\n' ::
      ([] ++ '\n' :: []))))) := by
    rw [instHeader_eq]
    simp
  rw [e, splitLines_line _ _ (by decide), splitLines_line _ _ (by decide),
    splitLines_line _ _ (by simp [hf]), splitLines_line _ _ (by decide),
    splitLines_line _ _ (by decide), splitLines_line _ _ (by decide)]
  simp [splitLines]

/-! ## Facts about `main`: one equation per way the run can end -/

section
variable {Value Tmpl : Type}

theorem main_data_error (env : Env Value Tmpl) (fl : Flags) (e : Bytes)
    (hd : decodeData env fl = .error e) :
    main env fl =
      { stderr := [Sprintln ["Failed to parse data (-d param):".toList, e]]
        trace := [.parseData]
        exit := 2 } := by
  have h1 : fl.data ≠ [] := by
    intro h; simp [decodeData, h] at hd
  simp [main, hd, h1, World.enter, World.Fprintln_stderr, World.Exit]

theorem main_read_error (env : Env Value Tmpl) (fl : Flags) (d : Option Value) (e : Bytes)
    (hd : decodeData env fl = .ok d) (hr : readInput env fl = .error e) :
    main env fl =
      { stderr := stdinNote fl ++ [Sprintln ["Failed to read input:".toList, e]]
        trace := dataTrace fl ++ [.readTemplate]
        exit := 2 } := by
  simp only [main, hd, hr]
  by_cases h1 : fl.data = [] <;> by_cases h2 : fl.in_ = [] <;>
    simp [h1, h2, dataTrace, stdinNote, World.enter, World.Fprintln_stderr, World.Exit]

theorem main_parse_error (env : Env Value Tmpl) (fl : Flags) (d : Option Value)
    (input e : Bytes)
    (hd : decodeData env fl = .ok d) (hr : readInput env fl = .ok input)
    (hp : env.parse (funcs Value) input = .error e) :
    main env fl =
      { stderr := stdinNote fl ++ [Sprintln ["Failed to parse template:".toList, e]]
        trace := dataTrace fl ++ [.readTemplate, .parseTemplate]
        exit := 2 } := by
  simp only [main, hd, hr, hp]
  by_cases h1 : fl.data = [] <;> by_cases h2 : fl.in_ = [] <;>
    simp [h1, h2, dataTrace, stdinNote, World.enter, World.Fprintln_stderr, World.Exit]

theorem main_execute_error (env : Env Value Tmpl) (fl : Flags) (d : Option Value)
    (input : Bytes) (t : Tmpl) (e : Bytes)
    (hd : decodeData env fl = .ok d) (hr : readInput env fl = .ok input)
    (hp : env.parse (funcs Value) input = .ok t) (hx : env.execute t d = .error e) :
    main env fl =
      { stdout := [Sprintln ["Failed to execute template:".toList, e]]
        stderr := stdinNote fl
        trace := dataTrace fl ++ [.readTemplate, .parseTemplate, .executeTemplate]
        exit := 2 } := by
  simp only [main, hd, hr, hp, hx]
  by_cases h1 : fl.data = [] <;> by_cases h2 : fl.in_ = [] <;>
    simp [h1, h2, dataTrace, stdinNote, World.enter, World.Fprintln_stderr, World.Exit,
      World.Println]

theorem main_gofmt_error (env : Env Value Tmpl) (fl : Flags) (d : Option Value)
    (input : Bytes) (t : Tmpl) (src e : Bytes)
    (hd : decodeData env fl = .ok d) (hr : readInput env fl = .ok input)
    (hp : env.parse (funcs Value) input = .ok t) (hx : env.execute t d = .ok src)
    (hf : runGofmt env fl (attachHeader fl src) = .error e) :
    main env fl =
      { stdout := [Sprintln ["Failed to gofmt the resulting source:".toList, e]]
        stderr := stdinNote fl
        trace := dataTrace fl ++ [.readTemplate, .parseTemplate, .executeTemplate]
          ++ (if !fl.nh then [.attachHeader] else []) ++ [.runGofmt]
        exit := 2 } := by
  have h3 : fl.nf = false := by
    cases h : fl.nf
    · rfl
    · simp [runGofmt, h] at hf
  simp only [main, hd, hr, hp, hx, hf]
  cases h4 : fl.nh <;> by_cases h1 : fl.data = [] <;> by_cases h2 : fl.in_ = [] <;>
    simp [h1, h2, h3, dataTrace, stdinNote, World.enter, World.Fprintln_stderr,
      World.Exit, World.Println]

theorem main_reaches_write (env : Env Value Tmpl) (fl : Flags) (d : Option Value)
    (input : Bytes) (t : Tmpl) (src final : Bytes)
    (hd : decodeData env fl = .ok d) (hr : readInput env fl = .ok input)
    (hp : env.parse (funcs Value) input = .ok t) (hx : env.execute t d = .ok src)
    (hf : runGofmt env fl (attachHeader fl src) = .ok final) :
    main env fl = writeOutput env fl final (beforeWrite fl) := by
  simp only [main, hd, hr, hp, hx, hf]
  congr 1
  simp only [beforeWrite, dataTrace, stdinNote, World.enter, World.Fprintln_stderr]
  cases fl.nh <;> cases fl.nf <;> by_cases h1 : fl.data = [] <;> by_cases h2 : fl.in_ = [] <;>
    simp [h1, h2]

/-- The stage "Write output" when `-o` is empty. -/
theorem writeOutput_stdout (env : Env Value Tmpl) (fl : Flags) (final : Bytes)
    (ho : fl.out = []) :
    writeOutput env fl final (beforeWrite fl) =
      { stdout := [final]
        stderr := stdinNote fl
        trace := (beforeWrite fl).trace ++ [.writeOutput] } := by
  simp [writeOutput, ho, beforeWrite, World.enter, World.Print]

/-- The stage "Write output" when `-o` is set and the file is written. -/
theorem writeOutput_file (env : Env Value Tmpl) (fl : Flags) (final : Bytes)
    (ho : fl.out ≠ []) (hw : env.writeFile fl.out final 0o644 = none) :
    writeOutput env fl final (beforeWrite fl) =
      { stderr := stdinNote fl ++ [Sprintln ["Wrote to:".toList, fl.out]]
        files := [(fl.out, final)]
        trace := (beforeWrite fl).trace ++ [.writeOutput] } := by
  simp [writeOutput, ho, hw, beforeWrite, World.enter, World.Fprintln_stderr]

/-- The stage "Write output" when `-o` is set and writing fails. -/
theorem writeOutput_error (env : Env Value Tmpl) (fl : Flags) (final e : Bytes)
    (ho : fl.out ≠ []) (hw : env.writeFile fl.out final 0o644 = some e) :
    writeOutput env fl final (beforeWrite fl) =
      { stdout := [Sprintln ["Failed to write output:".toList, e]]
        stderr := stdinNote fl
        files := [(fl.out, final)]
        trace := (beforeWrite fl).trace ++ [.writeOutput]
        exit := 2 } := by
  simp [writeOutput, ho, hw, beforeWrite, World.enter, World.Println, World.Exit]

theorem writeOutput_not_mem_dataTrace (fl : Flags) : Stage.writeOutput ∉ dataTrace fl := by
  unfold dataTrace
  split <;> simp

/-- A run whose trace holds the stage "Write output" passed every earlier
stage. -/
theorem reaches_write_inv (env : Env Value Tmpl) (fl : Flags)
    (h : Stage.writeOutput ∈ (main env fl).trace) :
    ∃ d input t src final,
      decodeData env fl = .ok d ∧ readInput env fl = .ok input ∧
      env.parse (funcs Value) input = .ok t ∧ env.execute t d = .ok src ∧
      runGofmt env fl (attachHeader fl src) = .ok final := by
  have hdt := writeOutput_not_mem_dataTrace fl
  rcases hd : decodeData env fl with e | d
  · rw [main_data_error env fl e hd] at h
    simp at h
  rcases hr : readInput env fl with e | input
  · rw [main_read_error env fl d e hd hr] at h
    simp [hdt] at h
  rcases hp : env.parse (funcs Value) input with e | t
  · rw [main_parse_error env fl d input e hd hr hp] at h
    simp [hdt] at h
  rcases hx : env.execute t d with e | src
  · rw [main_execute_error env fl d input t e hd hr hp hx] at h
    simp [hdt] at h
  rcases hf : runGofmt env fl (attachHeader fl src) with e | final
  · rw [main_gofmt_error env fl d input t src e hd hr hp hx hf] at h
    cases h4 : fl.nh <;> simp [hdt, h4] at h
  exact ⟨d, input, t, src, final, rfl, rfl, hp, hx, hf⟩

/-- A run that ends with status 0 passed every stage. -/
theorem exit_zero_inv (env : Env Value Tmpl) (fl : Flags) (h : (main env fl).exit = 0) :
    ∃ d input t src final,
      decodeData env fl = .ok d ∧ readInput env fl = .ok input ∧
      env.parse (funcs Value) input = .ok t ∧ env.execute t d = .ok src ∧
      runGofmt env fl (attachHeader fl src) = .ok final ∧
      (fl.out = [] ∨ (fl.out ≠ [] ∧ env.writeFile fl.out final 0o644 = none)) := by
  rcases hd : decodeData env fl with e | d
  · rw [main_data_error env fl e hd] at h
    simp at h
  rcases hr : readInput env fl with e | input
  · rw [main_read_error env fl d e hd hr] at h
    simp at h
  rcases hp : env.parse (funcs Value) input with e | t
  · rw [main_parse_error env fl d input e hd hr hp] at h
    simp at h
  rcases hx : env.execute t d with e | src
  · rw [main_execute_error env fl d input t e hd hr hp hx] at h
    simp at h
  rcases hf : runGofmt env fl (attachHeader fl src) with e | final
  · rw [main_gofmt_error env fl d input t src e hd hr hp hx hf] at h
    simp at h
  refine ⟨d, input, t, src, final, rfl, rfl, hp, hx, hf, ?_⟩
  by_cases ho : fl.out = []
  · exact Or.inl ho
  · rcases hw : env.writeFile fl.out final 0o644 with _ | e
    · exact Or.inr ⟨ho, rfl⟩
    · rw [main_reaches_write env fl d input t src final hd hr hp hx hf,
        writeOutput_error env fl final e ho hw] at h
      simp at h

/-- With `-d` empty the stage "Parse template data" is never started. -/
theorem parseData_not_started (env : Env Value Tmpl) (fl : Flags) (hdata : fl.data = []) :
    Stage.parseData ∉ (main env fl).trace := by
  have hd : decodeData env fl = .ok none := by simp [decodeData, hdata]
  have hdt : dataTrace fl = [] := by simp [dataTrace, hdata]
  rcases hr : readInput env fl with e | input
  · rw [main_read_error env fl none e hd hr]
    simp [hdt]
  rcases hp : env.parse (funcs Value) input with e | t
  · rw [main_parse_error env fl none input e hd hr hp]
    simp [hdt]
  rcases hx : env.execute t none with e | src
  · rw [main_execute_error env fl none input t e hd hr hp hx]
    simp [hdt]
  rcases hf : runGofmt env fl (attachHeader fl src) with e | final
  · rw [main_gofmt_error env fl none input t src e hd hr hp hx hf]
    cases h4 : fl.nh <;> simp [hdt]
  rw [main_reaches_write env fl none input t src final hd hr hp hx hf]
  have hb : Stage.parseData ∉ (beforeWrite fl).trace ++ [Stage.writeOutput] := by
    cases h4 : fl.nh <;> cases h5 : fl.nf <;> simp [beforeWrite, hdt, h4, h5]
  by_cases ho : fl.out = []
  · rw [writeOutput_stdout env fl final ho]
    exact hb
  · rcases hw : env.writeFile fl.out final 0o644 with _ | e
    · rw [writeOutput_file env fl final ho hw]
      exact hb
    · rw [writeOutput_error env fl final e ho hw]
      exact hb

end

/-! ## The helper `makeSlice` -/

section
variable {Value Tmpl : Type}

/-- C6: `makeSlice`, registered under the name `slice`, collects its arguments
into a sequence: the result has the length of the argument list (zero for the
empty list) and at every index it holds exactly the argument at that index. -/
theorem makeSlice_collects_arguments {α : Type} (a : List α) :
    (makeSlice a).length = a.length ∧
    (∀ i : Nat, (makeSlice a)[i]? = a[i]?) ∧
    makeSlice ([] : List α) = [] ∧
    (funcs α).map Prod.fst = ["slice".toList] ∧
    (∀ f ∈ (funcs α).map Prod.snd, f a = a) := by
  refine ⟨rfl, fun _ => rfl, rfl, rfl, ?_⟩
  intro f hf
  simp only [funcs, List.map_cons, List.map_nil, List.mem_singleton] at hf
  subst hf
  rfl

/-! ## The header -/

/-- C2: the header names the tool and, when the template path is known, the
path.  For a non-empty `-i` value `p` the header is a fixed prefix, the line
`// This file was auto-generated from 'p' using goat.`, a newline and a fixed
suffix; for an empty `-i` value it is the same prefix, the line
`// This file was auto-generated using goat.`, a newline and the same suffix.
The prefix ends a line and the suffix ends with exactly one blank line.  When
`p` has no newline the sentence is one of the lines of the header. -/
theorem header_names_tool_and_path (p : Bytes) :
    (p ≠ [] →
      instHeader p =
        "// ***** DO NOT EDIT THIS FILE MANUALLY. *****\n//\n".toList
          ++ ("// This file was auto-generated from '".toList ++ p ++ "' using goat.".toList)
          ++ '\n' :: "//\n// goat: https://www.github.com/fluhus/goat\n\n".toList) ∧
    instHeader [] =
        "// ***** DO NOT EDIT THIS FILE MANUALLY. *****\n//\n".toList
          ++ "// This file was auto-generated using goat.".toList
          ++ '\n' :: "//\n// goat: https://www.github.com/fluhus/goat\n\n".toList ∧
    (p ≠ [] → '\n' ∉ p →
      "// This file was auto-generated from '".toList ++ p ++ "' using goat.".toList
        ∈ splitLines (instHeader p)) ∧
    "// This file was auto-generated using goat.".toList ∈ splitLines (instHeader []) ∧
    (∃ body, instHeader p = body ++ "goat\n\n".toList) := by
  refine ⟨?_, ?_, ?_, ?_, ?_⟩
  · intro hp
    rw [instHeader_eq]
    simp [fromClause, hp]
  · rw [instHeader_eq]
    simp [fromClause]
  · intro hp hn
    rw [splitLines_instHeader p hn]
    simp [fromClause, hp]
  · rw [splitLines_instHeader [] (by simp)]
    simp [fromClause]
  · refine ⟨"// ***** DO NOT EDIT THIS FILE MANUALLY. *****\n//\n// This file was auto-generated ".toList
        ++ fromClause p
        ++ "using goat.\n//\n// goat: https://www.github.com/fluhus/".toList, ?_⟩
    rw [instHeader_eq]
    simp

/-- C2, at the path `a.tmpl`. -/
theorem header_names_tool_and_path_witness :
    instHeader "a.tmpl".toList =
      ("// ***** DO NOT EDIT THIS FILE MANUALLY. *****\n//\n"
        ++ "// This file was auto-generated from 'a.tmpl' using goat.\n"
        ++ "//\n// goat: https://www.github.com/fluhus/goat\n\n").toList ∧
    "// This file was auto-generated from 'a.tmpl' using goat.".toList
      ∈ splitLines (instHeader "a.tmpl".toList) := by
  have h := header_names_tool_and_path "a.tmpl".toList
  refine ⟨?_, ?_⟩
  · rw [h.1 (by decide)]
    decide
  · have h3 := h.2.2.1 (by decide) (by decide)
    simpa using h3

/-- C10: for a `-i` value without a newline, the empty value included, every
line of the header is empty or begins with `//`; and whatever the `-i` value
holds, percent signs included, `fmt.Sprintf` puts it into the header
unchanged, between `from '` and `' `, in the place of the one `%v`. -/
theorem header_is_comment_block (p : Bytes) :
    ('\n' ∉ p → ∀ l ∈ splitLines (instHeader p), l = [] ∨ "//".toList <+: l) ∧
    Sprintf header [fromClause p] = some
      ("// ***** DO NOT EDIT THIS FILE MANUALLY. *****\n//\n// This file was auto-generated ".toList
        ++ fromClause p
        ++ "using goat.\n//\n// goat: https://www.github.com/fluhus/goat\n\n".toList) ∧
    (p ≠ [] → fromClause p = "from '".toList ++ p ++ "' ".toList) ∧
    fromClause [] = [] := by
  refine ⟨?_, ?_, ?_, ?_⟩
  · intro hn l hl
    rw [splitLines_instHeader p hn] at hl
    simp only [List.mem_cons, List.mem_singleton, List.not_mem_nil, or_false] at hl
    rcases hl with h | h | h | h | h | h | h
    · right; rw [h]; decide
    · right; rw [h]
    · right; rw [h]; exact ⟨"// This file was auto-generated ".toList.drop 2
        ++ fromClause p ++ "using goat.".toList, by simp⟩
    · right; rw [h]
    · right; rw [h]; decide
    · left; exact h
    · left; exact h
  · rw [header_split, Sprintf_lit _ _ _ (by decide), Sprintf_v,
      Sprintf_lit_nil _ (by decide)]
    simp
  · intro hp
    simp [fromClause, hp]
  · simp [fromClause]

/-- C10, at the path `100%v.tmpl`. -/
theorem header_is_comment_block_witness :
    '\n' ∉ "100%v.tmpl".toList ∧
    (∀ l ∈ splitLines (instHeader "100%v.tmpl".toList), l = [] ∨ "//".toList <+: l) ∧
    instHeader "100%v.tmpl".toList =
      ("// ***** DO NOT EDIT THIS FILE MANUALLY. *****\n//\n"
        ++ "// This file was auto-generated from '100%v.tmpl' using goat.\n"
        ++ "//\n// goat: https://www.github.com/fluhus/goat\n\n").toList :=
  ⟨by decide, (header_is_comment_block "100%v.tmpl".toList).1 (by decide),
    by rw [instHeader_eq]; decide⟩

/-! ## The run of `main` -/

set_option maxRecDepth 20000

/-- C1: in a run with `-nf` that reaches the stage "Write output", the bytes
written (to standard output when `-o` is empty, to the file otherwise) are the
rendered text itself under `-nh`, and the header for the `-i` value followed
by the rendered text otherwise. -/
theorem nf_final_bytes (env : Env Value Tmpl) (fl : Flags) (hnf : fl.nf = true)
    (h : Stage.writeOutput ∈ (main env fl).trace) :
    ∃ d input t src,
      decodeData env fl = .ok d ∧ readInput env fl = .ok input ∧
      env.parse (funcs Value) input = .ok t ∧ env.execute t d = .ok src ∧
      (fl.out = [] →
        (main env fl).stdout = [if fl.nh then src else instHeader fl.in_ ++ src]) ∧
      (fl.out ≠ [] →
        (main env fl).files = [(fl.out, if fl.nh then src else instHeader fl.in_ ++ src)]) := by
  obtain ⟨d, input, t, src, final, hd, hr, hp, hx, hf⟩ := reaches_write_inv env fl h
  have hfin : final = if fl.nh then src else instHeader fl.in_ ++ src := by
    simp only [runGofmt, hnf, Bool.not_true, Bool.false_eq_true, if_false, Except.ok.injEq] at hf
    rw [← hf]
    cases h4 : fl.nh <;> simp [attachHeader, h4]
  refine ⟨d, input, t, src, hd, hr, hp, hx, ?_, ?_⟩
  · intro ho
    rw [main_reaches_write env fl d input t src final hd hr hp hx hf,
      writeOutput_stdout env fl final ho, hfin]
  · intro ho
    rw [main_reaches_write env fl d input t src final hd hr hp hx hf, ← hfin]
    rcases hw : env.writeFile fl.out final 0o644 with _ | e
    · rw [writeOutput_file env fl final ho hw]
    · rw [writeOutput_error env fl final e ho hw]

/-- C1, at the run `goat -nf -i a.tmpl`. -/
theorem nf_final_bytes_witness :
    flagsNf.nf = true ∧ Stage.writeOutput ∈ (main demoEnv flagsNf).trace ∧
    ∃ d input t src,
      decodeData demoEnv flagsNf = .ok d ∧ readInput demoEnv flagsNf = .ok input ∧
      demoEnv.parse (funcs Nat) input = .ok t ∧ demoEnv.execute t d = .ok src ∧
      (flagsNf.out = [] →
        (main demoEnv flagsNf).stdout =
          [if flagsNf.nh then src else instHeader flagsNf.in_ ++ src]) ∧
      (flagsNf.out ≠ [] →
        (main demoEnv flagsNf).files =
          [(flagsNf.out, if flagsNf.nh then src else instHeader flagsNf.in_ ++ src)]) :=
  ⟨rfl, by decide, nf_final_bytes demoEnv flagsNf rfl (by decide)⟩

/-- C3: an error at any one stage ends the run with exit status 2 and the
failing stage is the last one started; a run in which every stage succeeds ends
with status 0; no run ends with another status. -/
theorem error_aborts_with_exit_2 (env : Env Value Tmpl) (fl : Flags) :
    (∀ e, decodeData env fl = .error e →
      (main env fl).exit = 2 ∧ (main env fl).trace = [.parseData]) ∧
    (∀ d e, decodeData env fl = .ok d → readInput env fl = .error e →
      (main env fl).exit = 2 ∧ (main env fl).trace = dataTrace fl ++ [.readTemplate]) ∧
    (∀ d input e, decodeData env fl = .ok d → readInput env fl = .ok input →
      env.parse (funcs Value) input = .error e →
      (main env fl).exit = 2 ∧
      (main env fl).trace = dataTrace fl ++ [.readTemplate, .parseTemplate]) ∧
    (∀ d input t e, decodeData env fl = .ok d → readInput env fl = .ok input →
      env.parse (funcs Value) input = .ok t → env.execute t d = .error e →
      (main env fl).exit = 2 ∧
      (main env fl).trace =
        dataTrace fl ++ [.readTemplate, .parseTemplate, .executeTemplate]) ∧
    (∀ d input t src e, decodeData env fl = .ok d → readInput env fl = .ok input →
      env.parse (funcs Value) input = .ok t → env.execute t d = .ok src →
      fl.nf = false →
      env.format (if fl.nh then src else instHeader fl.in_ ++ src) = .error e →
      (main env fl).exit = 2 ∧
      (main env fl).trace =
        dataTrace fl ++ [.readTemplate, .parseTemplate, .executeTemplate]
          ++ (if fl.nh then [] else [.attachHeader]) ++ [.runGofmt]) ∧
    (∀ d input t src final e, decodeData env fl = .ok d → readInput env fl = .ok input →
      env.parse (funcs Value) input = .ok t → env.execute t d = .ok src →
      runGofmt env fl (attachHeader fl src) = .ok final →
      fl.out ≠ [] → env.writeFile fl.out final 0o644 = some e →
      (main env fl).exit = 2 ∧ (main env fl).trace.getLast? = some .writeOutput) ∧
    (∀ d input t src final, decodeData env fl = .ok d → readInput env fl = .ok input →
      env.parse (funcs Value) input = .ok t → env.execute t d = .ok src →
      runGofmt env fl (attachHeader fl src) = .ok final →
      (fl.out = [] ∨ env.writeFile fl.out final 0o644 = none) →
      (main env fl).exit = 0) ∧
    ((main env fl).exit = 0 ∨ (main env fl).exit = 2) := by
  refine ⟨?_, ?_, ?_, ?_, ?_, ?_, ?_, ?_⟩
  · intro e hd
    rw [main_data_error env fl e hd]
    exact ⟨rfl, rfl⟩
  · intro d e hd hr
    rw [main_read_error env fl d e hd hr]
    exact ⟨rfl, rfl⟩
  · intro d input e hd hr hp
    rw [main_parse_error env fl d input e hd hr hp]
    exact ⟨rfl, rfl⟩
  · intro d input t e hd hr hp hx
    rw [main_execute_error env fl d input t e hd hr hp hx]
    exact ⟨rfl, rfl⟩
  · intro d input t src e hd hr hp hx hnf hf
    have hf2 : runGofmt env fl (attachHeader fl src) = .error e := by
      rw [← hf]
      cases h4 : fl.nh <;> simp [runGofmt, attachHeader, hnf, h4]
    rw [main_gofmt_error env fl d input t src e hd hr hp hx hf2]
    refine ⟨rfl, ?_⟩
    cases h4 : fl.nh <;> simp
  · intro d input t src final e hd hr hp hx hf ho hw
    rw [main_reaches_write env fl d input t src final hd hr hp hx hf,
      writeOutput_error env fl final e ho hw]
    exact ⟨rfl, by simp⟩
  · intro d input t src final hd hr hp hx hf hw
    rw [main_reaches_write env fl d input t src final hd hr hp hx hf]
    by_cases ho : fl.out = []
    · rw [writeOutput_stdout env fl final ho]
    · rcases hw with hw | hw
      · exact absurd hw ho
      · rw [writeOutput_file env fl final ho hw]
  · rcases hd : decodeData env fl with e | d
    · rw [main_data_error env fl e hd]; exact Or.inr rfl
    rcases hr : readInput env fl with e | input
    · rw [main_read_error env fl d e hd hr]; exact Or.inr rfl
    rcases hp : env.parse (funcs Value) input with e | t
    · rw [main_parse_error env fl d input e hd hr hp]; exact Or.inr rfl
    rcases hx : env.execute t d with e | src
    · rw [main_execute_error env fl d input t e hd hr hp hx]; exact Or.inr rfl
    rcases hf : runGofmt env fl (attachHeader fl src) with e | final
    · rw [main_gofmt_error env fl d input t src e hd hr hp hx hf]; exact Or.inr rfl
    rw [main_reaches_write env fl d input t src final hd hr hp hx hf]
    by_cases ho : fl.out = []
    · rw [writeOutput_stdout env fl final ho]; exact Or.inl rfl
    · rcases hw : env.writeFile fl.out final 0o644 with _ | e
      · rw [writeOutput_file env fl final ho hw]; exact Or.inl rfl
      · rw [writeOutput_error env fl final e ho hw]; exact Or.inr rfl

/-- C3, at one failing run for each stage and at one run without error. -/
theorem error_aborts_with_exit_2_witness :
    ((main demoEnv flagsBadData).exit = 2 ∧
      (main demoEnv flagsBadData).trace = [.parseData]) ∧
    ((main demoEnv { in_ := "missing.tmpl".toList }).exit = 2 ∧
      (main demoEnv { in_ := "missing.tmpl".toList }).trace = [.readTemplate]) ∧
    ((main demoEnv { in_ := "bad.tmpl".toList }).exit = 2 ∧
      (main demoEnv { in_ := "bad.tmpl".toList }).trace =
        [.readTemplate, .parseTemplate]) ∧
    ((main demoEnv flagsBadExec).exit = 2 ∧
      (main demoEnv flagsBadExec).trace =
        [.readTemplate, .parseTemplate, .executeTemplate]) ∧
    ((main demoEnv flagsBadFmt).exit = 2 ∧
      (main demoEnv flagsBadFmt).trace =
        [.readTemplate, .parseTemplate, .executeTemplate, .attachHeader, .runGofmt]) ∧
    ((main demoEnv flagsBadWrite).exit = 2 ∧
      (main demoEnv flagsBadWrite).trace.getLast? = some .writeOutput) ∧
    (main demoEnv flagsFile).exit = 0 :=
  ⟨(error_aborts_with_exit_2 demoEnv flagsBadData).1 "invalid character".toList rfl,
   (error_aborts_with_exit_2 demoEnv { in_ := "missing.tmpl".toList }).2.1
      none "no such file".toList rfl rfl,
   (error_aborts_with_exit_2 demoEnv { in_ := "bad.tmpl".toList }).2.2.1
      none "\x7b\x7b".toList "unclosed action".toList rfl rfl rfl,
   (error_aborts_with_exit_2 demoEnv flagsBadExec).2.2.2.1
      none "\x7b\x7blen 1\x7d\x7d".toList "\x7b\x7blen 1\x7d\x7d".toList "error calling len: len of type int".toList
      rfl rfl rfl rfl,
   (error_aborts_with_exit_2 demoEnv flagsBadFmt).2.2.2.2.1
      none "func (".toList "func (".toList "func (".toList "expected type".toList
      rfl rfl rfl rfl rfl (by rw [instHeader_eq]; rfl),
   (error_aborts_with_exit_2 demoEnv flagsBadWrite).2.2.2.2.2.1
      none "package q".toList "package q".toList "package q".toList
      (instHeader "a.tmpl".toList ++ "package q".toList ++ ['\n'])
      "is a directory".toList rfl rfl rfl rfl rfl (by decide) rfl,
   (error_aborts_with_exit_2 demoEnv flagsFile).2.2.2.2.2.2.1
      (some 1) "package q".toList "package q".toList "package q".toList
      (instHeader "a.tmpl".toList ++ "package q".toList ++ ['\n'])
      rfl rfl rfl rfl rfl (Or.inr rfl)⟩

/-- C5: when `-nf` is not set and the formatter rejects the text to be emitted
(the header followed by the rendered text, or the rendered text alone under
`-nh`), the run ends with status 2, `ioutil.WriteFile` is not called, the
stage "Write output" is not started, and the only write to standard output is
the line reporting the formatter's error. -/
theorem gofmt_rejection_fails_run (env : Env Value Tmpl) (fl : Flags) (d : Option Value)
    (input : Bytes) (t : Tmpl) (src e : Bytes)
    (hnf : fl.nf = false)
    (hd : decodeData env fl = .ok d) (hr : readInput env fl = .ok input)
    (hp : env.parse (funcs Value) input = .ok t) (hx : env.execute t d = .ok src)
    (hf : env.format (if fl.nh then src else instHeader fl.in_ ++ src) = .error e) :
    (main env fl).exit = 2 ∧ (main env fl).exit ≠ 0 ∧
    (main env fl).files = [] ∧
    Stage.writeOutput ∉ (main env fl).trace ∧
    (main env fl).stdout = [Sprintln ["Failed to gofmt the resulting source:".toList, e]] := by
  have hf2 : runGofmt env fl (attachHeader fl src) = .error e := by
    rw [← hf]
    cases h4 : fl.nh <;> simp [runGofmt, attachHeader, hnf, h4]
  rw [main_gofmt_error env fl d input t src e hd hr hp hx hf2]
  have hdt := writeOutput_not_mem_dataTrace fl
  refine ⟨rfl, by simp, rfl, ?_, rfl⟩
  cases h4 : fl.nh <;> simp [hdt]

/-- C5, at the run `goat -i fmt.tmpl -o a.go`. -/
theorem gofmt_rejection_fails_run_witness :
    flagsBadFmt.nf = false ∧
    demoEnv.format (instHeader flagsBadFmt.in_ ++ "func (".toList) =
      .error "expected type".toList ∧
    (main demoEnv flagsBadFmt).exit = 2 ∧ (main demoEnv flagsBadFmt).exit ≠ 0 ∧
    (main demoEnv flagsBadFmt).files = [] ∧
    Stage.writeOutput ∉ (main demoEnv flagsBadFmt).trace ∧
    (main demoEnv flagsBadFmt).stdout =
      [Sprintln ["Failed to gofmt the resulting source:".toList, "expected type".toList]] :=
  ⟨rfl, by rw [instHeader_eq]; rfl,
    gofmt_rejection_fails_run demoEnv flagsBadFmt none "func (".toList "func (".toList
      "func (".toList "expected type".toList rfl rfl rfl rfl rfl
      (by rw [instHeader_eq]; rfl)⟩

/-- C7: a run that ends with status 0 writes the final bytes to exactly one
destination, once.  With `-o` empty, standard output receives one write, the
final bytes, and `ioutil.WriteFile` is not called; with `-o` set,
`ioutil.WriteFile` is called once, for that path with the final bytes, it
succeeds, and standard output receives nothing.  The final bytes are the
result of the stages up to "Run gofmt". -/
theorem output_one_destination (env : Env Value Tmpl) (fl : Flags)
    (h : (main env fl).exit = 0) :
    ∃ d input t src final,
      decodeData env fl = .ok d ∧ readInput env fl = .ok input ∧
      env.parse (funcs Value) input = .ok t ∧ env.execute t d = .ok src ∧
      runGofmt env fl (attachHeader fl src) = .ok final ∧
      (fl.out = [] → (main env fl).stdout = [final] ∧ (main env fl).files = []) ∧
      (fl.out ≠ [] →
        (main env fl).files = [(fl.out, final)] ∧ (main env fl).stdout = [] ∧
        env.writeFile fl.out final 0o644 = none) := by
  obtain ⟨d, input, t, src, final, hd, hr, hp, hx, hf, hw⟩ := exit_zero_inv env fl h
  refine ⟨d, input, t, src, final, hd, hr, hp, hx, hf, ?_, ?_⟩
  · intro ho
    rw [main_reaches_write env fl d input t src final hd hr hp hx hf,
      writeOutput_stdout env fl final ho]
    exact ⟨rfl, rfl⟩
  · intro ho
    rcases hw with hw | ⟨_, hw⟩
    · exact absurd hw ho
    · rw [main_reaches_write env fl d input t src final hd hr hp hx hf,
        writeOutput_file env fl final ho hw]
      exact ⟨rfl, rfl, hw⟩

/-- C7, at the runs `goat -nh` (to standard output) and
`goat -d 1 -i a.tmpl -o a.go` (to a file). -/
theorem output_one_destination_witness :
    ((main demoEnv flagsStdin).exit = 0 ∧
      ∃ d input t src final,
        decodeData demoEnv flagsStdin = .ok d ∧ readInput demoEnv flagsStdin = .ok input ∧
        demoEnv.parse (funcs Nat) input = .ok t ∧ demoEnv.execute t d = .ok src ∧
        runGofmt demoEnv flagsStdin (attachHeader flagsStdin src) = .ok final ∧
        (flagsStdin.out = [] →
          (main demoEnv flagsStdin).stdout = [final] ∧ (main demoEnv flagsStdin).files = []) ∧
        (flagsStdin.out ≠ [] →
          (main demoEnv flagsStdin).files = [(flagsStdin.out, final)] ∧
          (main demoEnv flagsStdin).stdout = [] ∧
          demoEnv.writeFile flagsStdin.out final 0o644 = none)) ∧
    (main demoEnv flagsStdin).stdout = ["package p\n".toList] ∧
    (main demoEnv flagsFile).files =
      [("a.go".toList, instHeader "a.tmpl".toList ++ "package q\n".toList)] ∧
    (main demoEnv flagsFile).stdout = [] :=
  ⟨⟨by decide, output_one_destination demoEnv flagsStdin (by decide)⟩,
    by decide, by decide, by decide⟩

/-- C8: the header is attached before the formatter runs.  In a run without
`-nf` that ends with status 0, the bytes written are the formatter's result on
the header followed by the rendered text, or on the rendered text alone under
`-nh`; the stage "Run gofmt" is started once, after "Attach header" and
before "Write output". -/
theorem header_then_formatter (env : Env Value Tmpl) (fl : Flags) (hnf : fl.nf = false)
    (h : (main env fl).exit = 0) :
    ∃ d input t src final,
      decodeData env fl = .ok d ∧ readInput env fl = .ok input ∧
      env.parse (funcs Value) input = .ok t ∧ env.execute t d = .ok src ∧
      env.format (if fl.nh then src else instHeader fl.in_ ++ src) = .ok final ∧
      (fl.out = [] → (main env fl).stdout = [final]) ∧
      (fl.out ≠ [] → (main env fl).files = [(fl.out, final)]) ∧
      (main env fl).trace =
        dataTrace fl ++ [.readTemplate, .parseTemplate, .executeTemplate]
          ++ (if fl.nh then [] else [.attachHeader]) ++ [.runGofmt, .writeOutput] := by
  obtain ⟨d, input, t, src, final, hd, hr, hp, hx, hf, hw⟩ := exit_zero_inv env fl h
  have hf2 : env.format (if fl.nh then src else instHeader fl.in_ ++ src) = .ok final := by
    rw [← hf]
    cases h4 : fl.nh <;> simp [runGofmt, attachHeader, hnf, h4]
  have htr : (beforeWrite fl).trace ++ [Stage.writeOutput] =
      dataTrace fl ++ [.readTemplate, .parseTemplate, .executeTemplate]
        ++ (if fl.nh then [] else [.attachHeader]) ++ [.runGofmt, .writeOutput] := by
    cases h4 : fl.nh <;> simp [beforeWrite, hnf, h4]
  refine ⟨d, input, t, src, final, hd, hr, hp, hx, hf2, ?_, ?_, ?_⟩
  · intro ho
    rw [main_reaches_write env fl d input t src final hd hr hp hx hf,
      writeOutput_stdout env fl final ho]
  · intro ho
    rcases hw with hw | ⟨_, hw⟩
    · exact absurd hw ho
    · rw [main_reaches_write env fl d input t src final hd hr hp hx hf,
        writeOutput_file env fl final ho hw]
  · rw [main_reaches_write env fl d input t src final hd hr hp hx hf, ← htr]
    rcases hw with ho | ⟨ho, hw⟩
    · rw [writeOutput_stdout env fl final ho]
    · rw [writeOutput_file env fl final ho hw]

/-- C8, at the run `goat -d 1 -i a.tmpl -o a.go`. -/
theorem header_then_formatter_witness :
    flagsFile.nf = false ∧ (main demoEnv flagsFile).exit = 0 ∧
    ∃ d input t src final,
      decodeData demoEnv flagsFile = .ok d ∧ readInput demoEnv flagsFile = .ok input ∧
      demoEnv.parse (funcs Nat) input = .ok t ∧ demoEnv.execute t d = .ok src ∧
      demoEnv.format (if flagsFile.nh then src else instHeader flagsFile.in_ ++ src)
        = .ok final ∧
      (flagsFile.out = [] → (main demoEnv flagsFile).stdout = [final]) ∧
      (flagsFile.out ≠ [] → (main demoEnv flagsFile).files = [(flagsFile.out, final)]) ∧
      (main demoEnv flagsFile).trace =
        dataTrace flagsFile ++ [.readTemplate, .parseTemplate, .executeTemplate]
          ++ (if flagsFile.nh then [] else [.attachHeader]) ++ [.runGofmt, .writeOutput] :=
  ⟨rfl, by decide, header_then_formatter demoEnv flagsFile rfl (by decide)⟩

/-- C9: the JSON data is optional and checked first.  With `-d` empty the
stage "Parse template data" is not started, `json.Unmarshal` plays no part in
the run and `d` is nil; once the template is read and parsed, the stage
"Execute template" is started and the run is the one given by `Execute` on a
nil data context: its error ends the run with status 2 and the line reporting
it, its text is what the later stages attach the header to, format and write.
With `-d` non-empty and rejected by `json.Unmarshal`, the run ends with status
2 after that one stage: the input is not read, nothing is rendered, nothing
reaches standard output or a file, and standard error holds the one line
reporting the error. -/
theorem data_optional_checked_first (env : Env Value Tmpl) (fl : Flags) :
    (fl.data = [] →
      decodeData env fl = .ok none ∧
      Stage.parseData ∉ (main env fl).trace ∧
      (∀ u, main { env with unmarshal := u } fl = main env fl) ∧
      (∀ x, (∀ t, x t none = env.execute t none) →
        main { env with execute := x } fl = main env fl) ∧
      (∀ input t, readInput env fl = .ok input → env.parse (funcs Value) input = .ok t →
        Stage.executeTemplate ∈ (main env fl).trace ∧
        (∀ e, env.execute t none = .error e →
          main env fl =
            { stdout := [Sprintln ["Failed to execute template:".toList, e]]
              stderr := stdinNote fl
              files := []
              trace := [.readTemplate, .parseTemplate, .executeTemplate]
              exit := 2 }) ∧
        (∀ src, env.execute t none = .ok src →
          (∀ e, runGofmt env fl (attachHeader fl src) = .error e →
            (main env fl).exit = 2 ∧
            (main env fl).stdout =
              [Sprintln ["Failed to gofmt the resulting source:".toList, e]] ∧
            (main env fl).files = []) ∧
          (∀ final, runGofmt env fl (attachHeader fl src) = .ok final →
            main env fl = writeOutput env fl final (beforeWrite fl) ∧
            (fl.out = [] → (main env fl).stdout = [final]) ∧
            (fl.out ≠ [] → (main env fl).files = [(fl.out, final)]))))) ∧
    (fl.data ≠ [] → ∀ e, env.unmarshal fl.data = .error e →
      main env fl =
        { stdout := []
          stderr := [Sprintln ["Failed to parse data (-d param):".toList, e]]
          files := []
          trace := [.parseData]
          exit := 2 }) := by
  refine ⟨?_, ?_⟩
  · intro hdata
    have hd : decodeData env fl = .ok none := by simp [decodeData, hdata]
    have hdt : dataTrace fl = [] := by simp [dataTrace, hdata]
    refine ⟨hd, ?_, ?_, ?_, ?_⟩
    · exact parseData_not_started env fl hdata
    · intro u
      simp [main, decodeData, hdata, readInput, runGofmt, writeOutput]
    · intro x hx
      simp [main, decodeData, hdata, readInput, runGofmt, writeOutput, hx]
    · intro input t hr hp
      refine ⟨?_, ?_, ?_⟩
      · rcases hx : env.execute t none with e | src
        · rw [main_execute_error env fl none input t e hd hr hp hx]
          simp
        rcases hf : runGofmt env fl (attachHeader fl src) with e | final
        · rw [main_gofmt_error env fl none input t src e hd hr hp hx hf]
          simp
        rw [main_reaches_write env fl none input t src final hd hr hp hx hf]
        have hb : Stage.executeTemplate ∈ (beforeWrite fl).trace ++ [Stage.writeOutput] := by
          simp [beforeWrite]
        by_cases ho : fl.out = []
        · rw [writeOutput_stdout env fl final ho]
          exact hb
        · rcases hw : env.writeFile fl.out final 0o644 with _ | e
          · rw [writeOutput_file env fl final ho hw]
            exact hb
          · rw [writeOutput_error env fl final e ho hw]
            exact hb
      · intro e hx
        rw [main_execute_error env fl none input t e hd hr hp hx, hdt]
        rfl
      · intro src hx
        refine ⟨?_, ?_⟩
        · intro e hf
          rw [main_gofmt_error env fl none input t src e hd hr hp hx hf]
          exact ⟨rfl, rfl, rfl⟩
        · intro final hf
          have hm := main_reaches_write env fl none input t src final hd hr hp hx hf
          refine ⟨hm, ?_, ?_⟩
          · intro ho
            rw [hm, writeOutput_stdout env fl final ho]
          · intro ho
            rw [hm]
            rcases hw : env.writeFile fl.out final 0o644 with _ | e
            · rw [writeOutput_file env fl final ho hw]
            · rw [writeOutput_error env fl final e ho hw]
  · intro hdata e he
    have hd : decodeData env fl = .error e := by simp [decodeData, hdata, he]
    rw [main_data_error env fl e hd]

/-- C9, at the runs `goat -nf -i a.tmpl` (no data: the template `package q` is
executed on a nil data context and its text is written after the header),
`goat -i exec.tmpl` (no data: `Execute` fails on the nil data context) and
`goat -d {` (rejected data). -/
theorem data_optional_checked_first_witness :
    (flagsNf.data = [] ∧
      decodeData demoEnv flagsNf = .ok none ∧
      Stage.parseData ∉ (main demoEnv flagsNf).trace ∧
      (∀ u, main { demoEnv with unmarshal := u } flagsNf = main demoEnv flagsNf) ∧
      (∀ x, (∀ t, x t none = demoEnv.execute t none) →
        main { demoEnv with execute := x } flagsNf = main demoEnv flagsNf)) ∧
    (demoEnv.execute "package q".toList none = .ok "package q".toList ∧
      Stage.executeTemplate ∈ (main demoEnv flagsNf).trace ∧
      (main demoEnv flagsNf).stdout =
        [instHeader "a.tmpl".toList ++ "package q".toList]) ∧
    (flagsBadExec.data = [] ∧
      main demoEnv flagsBadExec =
        { stdout := ["Failed to execute template: error calling len: len of type int\n".toList]
          stderr := []
          files := []
          trace := [.readTemplate, .parseTemplate, .executeTemplate]
          exit := 2 }) ∧
    (flagsBadData.data ≠ [] ∧
      demoEnv.unmarshal flagsBadData.data = .error "invalid character".toList ∧
      main demoEnv flagsBadData =
        { stdout := []
          stderr := ["Failed to parse data (-d param): invalid character\n".toList]
          files := []
          trace := [.parseData]
          exit := 2 }) :=
  have h1 := (data_optional_checked_first demoEnv flagsNf).1 rfl
  have h2 := h1.2.2.2.2 "package q".toList "package q".toList rfl rfl
  have h3 := (data_optional_checked_first demoEnv flagsBadExec).1 rfl
  ⟨⟨rfl, h1.1, h1.2.1, h1.2.2.1, h1.2.2.2.1⟩,
    ⟨rfl, h2.1,
      ((h2.2.2 "package q".toList rfl).2
        (instHeader "a.tmpl".toList ++ "package q".toList) rfl).2.1 rfl⟩,
    ⟨rfl,
      (h3.2.2.2.2 "\x7b\x7blen 1\x7d\x7d".toList "\x7b\x7blen 1\x7d\x7d".toList rfl rfl).2.1
        "error calling len: len of type int".toList rfl⟩,
    ⟨by decide, rfl,
      (data_optional_checked_first demoEnv flagsBadData).2 (by decide)
        "invalid character".toList rfl⟩⟩

/-- C4: the code at three failing runs.  When executing the template, the
formatter or `ioutil.WriteFile` fails, the line reporting the error is written
with `fmt.Println`, so it goes to standard output and standard error does not
receive it; when the data is rejected the line goes to standard error, as it
does for a failure to read the input or to parse the template. -/
theorem late_failures_report_on_stdout :
    ((main demoEnv flagsBadExec).stdout =
        ["Failed to execute template: error calling len: len of type int\n".toList] ∧
      (main demoEnv flagsBadExec).stderr = [] ∧ (main demoEnv flagsBadExec).exit = 2) ∧
    ((main demoEnv flagsBadFmt).stdout =
        ["Failed to gofmt the resulting source: expected type\n".toList] ∧
      (main demoEnv flagsBadFmt).stderr = [] ∧ (main demoEnv flagsBadFmt).exit = 2) ∧
    ((main demoEnv flagsBadWrite).stdout =
        ["Failed to write output: is a directory\n".toList] ∧
      (main demoEnv flagsBadWrite).stderr = [] ∧ (main demoEnv flagsBadWrite).exit = 2) ∧
    ((main demoEnv flagsBadData).stderr =
        ["Failed to parse data (-d param): invalid character\n".toList] ∧
      (main demoEnv flagsBadData).stdout = [] ∧ (main demoEnv flagsBadData).exit = 2) := by
  decide

end

end Goat
